import Mathlib

/-!
Verification of the LTE scenario script `lte-simulation.cc` (ns-3.39).

The script is a single `main` that builds a topology (1 PGW gateway,
2 remote hosts, 4 eNBs, 10 UEs), assigns mobility, attaches UEs to eNBs
round-robin, installs static routes, schedules BulkSend/TCP and OnOff/UDP
traffic, and serializes flow-monitor statistics.  Everything below is a
shallow embedding of that setup code: the loops become maps over index
ranges, the helper calls become record constructions, and the tail of
`main` becomes an explicit event list.
-/

namespace LteSim

/-! ### Scenario constants (from the node-creation calls) -/

/-- `remoteHosts.Create(2)` -/
def numRemoteHosts : ℕ := 2

/-- `enbs.Create(4)` -/
def numEnbs : ℕ := 4

/-- `ues.Create(10)` -/
def numUes : ℕ := 10

/-! ### IPv4 addressing (topology-builder loop, lines 70-80) -/

/-- An IPv4 dotted-quad address as a natural number. -/
def ipv4 (a b c d : ℕ) : ℕ := ((a * 256 + b) * 256 + c) * 256 + d

/-- A contiguous IPv4 address block: base address and number of addresses. -/
structure AddrBlock where
  base : ℕ
  size : ℕ
deriving DecidableEq

/-- The /16 block `10.(i+1).0.0/16` assigned to the point-to-point link
between the PGW and remote host `i` (`base << "10." << (i + 1) << ".0.0"`,
mask `255.255.0.0`). -/
def remoteLinkBlock (i : ℕ) : AddrBlock := ⟨ipv4 10 (i + 1) 0 0, 2 ^ 16⟩

/-- The UE address space `7.0.0.0/8` managed by the `PointToPointEpcHelper`
(the comment at line 73 and the route destination at lines 165-166). -/
def ueAddressBlock : AddrBlock := ⟨ipv4 7 0 0 0, 2 ^ 24⟩

/-- Two address blocks are disjoint when their address ranges do not meet. -/
def blocksDisjoint (x y : AddrBlock) : Prop :=
  x.base + x.size ≤ y.base ∨ y.base + y.size ≤ x.base

instance (x y : AddrBlock) : Decidable (blocksDisjoint x y) := by
  unfold blocksDisjoint; infer_instance

/-- `Ipv4AddressHelper.Assign` hands out consecutive host addresses from
`base + 1` in device order; device 0 of each link is the PGW side, so
`ifc.GetAddress(0)` is the first address of the link's block. -/
def pgwSideAddr (i : ℕ) : ℕ := (remoteLinkBlock i).base + 1

/-- The remote-host side of link `i` (`ifc.GetAddress(1)`), the second
assigned address. -/
def remoteSideAddr (i : ℕ) : ℕ := (remoteLinkBlock i).base + 2

/-- `pgwAddressesForRemote`: the vector of PGW-side addresses recorded
during the topology-builder loop (`push_back(ifc.GetAddress(0))`). -/
def pgwAddressesForRemote : List ℕ :=
  (List.range numRemoteHosts).map pgwSideAddr

/-! ### Attachment (round-robin loop, lines 142-145) -/

/-- The eNB device index UE `i` is attached to:
`lteHelper->Attach(ueDevs.Get(i), enbDevs.Get(i % enbs.GetN()))`. -/
def attachedEnb (i : ℕ) : ℕ := i % numEnbs

/-- The complete list of `Attach` calls made by the program: one per UE,
in index order.  No other attach or handover call exists in the script. -/
def attachCalls : List (ℕ × ℕ) :=
  (List.range numUes).map fun i => (i, attachedEnb i)

/-! ### Positions and mobility -/

/-- A 3-D position with exact rational coordinates. -/
structure Vec3 where
  x : ℚ
  y : ℚ
  z : ℚ
deriving DecidableEq

/-- The four static eNB positions added to the `ListPositionAllocator`
(lines 97-100). -/
def enbPositions : List Vec3 :=
  [⟨0, 0, 20⟩, ⟨200, 0, 20⟩, ⟨0, 200, 20⟩, ⟨200, 200, 20⟩]

/-- One waypoint of a `WaypointMobilityModel`: a (time, position) pair. -/
structure Waypoint where
  time : ℚ
  pos : Vec3
deriving DecidableEq

/-- The four waypoints added to each waypoint UE (lines 126-129). -/
def carWaypoints : List Waypoint :=
  [⟨0, ⟨10, 10, 0⟩⟩, ⟨5, ⟨150, 10, 0⟩⟩, ⟨10, ⟨150, 150, 0⟩⟩, ⟨15, ⟨10, 150, 0⟩⟩]

/-- The waypoint list installed on UE `i`: the loop at lines 120-130 runs
for `i = 5..9` and adds the same four waypoints to each; other UEs have a
random-walk model and no waypoints. -/
def ueWaypoints (i : ℕ) : List Waypoint :=
  if 5 ≤ i ∧ i < 10 then carWaypoints else []

/-- Waypoint times are strictly increasing along the list. -/
def timesStrictInc (ws : List Waypoint) : Prop :=
  List.Chain' (fun a b => a.time < b.time) ws

instance (ws : List Waypoint) : Decidable (timesStrictInc ws) := by
  unfold timesStrictInc; infer_instance

/-- A waypoint path is a closed loop when its last position returns to its
first position. -/
def closedLoop (ws : List Waypoint) : Prop :=
  ws.head?.map Waypoint.pos = ws.getLast?.map Waypoint.pos

instance (ws : List Waypoint) : Decidable (closedLoop ws) := by
  unfold closedLoop; infer_instance

/-- Linear interpolation between two positions. -/
def lerp (p q : Vec3) (a : ℚ) : Vec3 :=
  ⟨p.x + a * (q.x - p.x), p.y + a * (q.y - p.y), p.z + a * (q.z - p.z)⟩

/-- Position of a `WaypointMobilityModel` at time `t`: holds the first
waypoint's position before its time, interpolates linearly between
consecutive waypoints, and holds the last position afterwards. -/
def posAt : List Waypoint → ℚ → Vec3
  | [], _ => ⟨0, 0, 0⟩
  | [w], _ => w.pos
  | w1 :: w2 :: rest, t =>
      if t ≤ w1.time then w1.pos
      else if t ≤ w2.time then
        lerp w1.pos w2.pos ((t - w1.time) / (w2.time - w1.time))
      else posAt (w2 :: rest) t

/-! ### Routing (lines 152-179) -/

/-- A static route entry: `(destination network, mask, next hop, interface)`.
A default route is destination `0.0.0.0` mask `0.0.0.0`. -/
structure Route where
  destNetwork : ℕ
  mask : ℕ
  nextHop : ℕ
  outInterface : ℕ
deriving DecidableEq

/-- `ueStatic->SetDefaultRoute(ueGateway, 1)` for one UE, where
`ueGateway = epcHelper->GetUeDefaultGatewayAddress()`. -/
def ueDefaultRouteOf (ueGateway : ℕ) : Route := ⟨0, 0, ueGateway, 1⟩

/-- The routes installed by the UE loop (lines 156-162): one default route
per UE, all pointing at the EPC gateway address. -/
def ueDefaultRoutes (ueGateway : ℕ) : List Route :=
  (List.range numUes).map fun _ => ueDefaultRouteOf ueGateway

/-- `Ipv4Address ueNetwork("7.0.0.0")` -/
def ueNetwork : ℕ := ipv4 7 0 0 0

/-- `Ipv4Mask ueMask("255.0.0.0")` -/
def ueNetworkMask : ℕ := ipv4 255 0 0 0

/-- `rhStatic->AddNetworkRouteTo(ueNetwork, ueMask, pgwAddressesForRemote[i], 1)`
for remote host `i` (lines 168-179): the next hop is read from the vector
recorded during topology construction. -/
def remoteHostRoute (i : ℕ) : Route :=
  ⟨ueNetwork, ueNetworkMask, pgwAddressesForRemote.getD i 0, 1⟩

/-! ### Command line (lines 38-40) -/

/-- The names registered on the `CommandLine` object before `Parse`.
The program constructs `CommandLine cmd;` and immediately calls
`cmd.Parse(argc, argv)` with no `AddValue` call, so nothing is registered. -/
def registeredArgNames : List String := []

/-- `CommandLine::Parse` semantics for value arguments: each supplied
`--name=value` pair updates the bound variable only when `name` was
registered with `AddValue`; unregistered names leave it unchanged. -/
def parseCommandLine (registered : List String)
    (args : List (String × ℚ)) (init : ℚ) : ℚ :=
  args.foldl (fun st a => if a.1 ∈ registered then a.2 else st) init

/-- The value of `simTime` after `cmd.Parse(argc, argv)`: initialized to
`20.0` and parsed against the (empty) registered-name list. -/
def simTimeAfterParse (args : List (String × ℚ)) : ℚ :=
  parseCommandLine registeredArgNames args 20

/-! ### Traffic (lines 187-227) -/

/-- The two traffic classes of the scenario: `bulk` is BulkSend over TCP,
`web` is OnOff over UDP. -/
inductive TrafficClass where
  | bulk
  | web
deriving DecidableEq

/-- One configured flow: class, source remote host, destination UE,
destination port, sink start time, source start time, source stop time
(all times in seconds). -/
structure FlowSpec where
  cls : TrafficClass
  srcHost : ℕ
  dstUe : ℕ
  port : ℕ
  sinkStart : ℚ
  srcStart : ℚ
  srcStop : ℚ
deriving DecidableEq

/-- The BulkSend/TCP flows (loop at lines 193-207): from remote host 0 to
UEs 0..4, port 9000, sink starts at 0.5 s, source starts at 1.0 s and
stops at `simTime`. -/
def bulkFlows (simTime : ℚ) : List FlowSpec :=
  (List.range 5).map fun i => ⟨.bulk, 0, i, 9000, 1/2, 1, simTime⟩

/-- The OnOff/UDP flows (loop at lines 210-227): from remote host 1 to
UEs 5..9, port 8000, sink starts at 1.5 s, source starts at 2.0 s and
stops at `simTime`. -/
def webFlows (simTime : ℚ) : List FlowSpec :=
  (List.range' 5 5).map fun i => ⟨.web, 1, i, 8000, 3/2, 2, simTime⟩

/-- All flows configured by the program. -/
def flows (simTime : ℚ) : List FlowSpec :=
  bulkFlows simTime ++ webFlows simTime

/-! ### Monitoring and run tail (lines 229-251) -/

/-- The observable calls made by the tail of `main` after the applications
are configured. -/
inductive Event where
  | installAll (monitorIdx : ℕ)
  | simulatorStop (t : ℚ)
  | simulatorRun
  | checkForLostPackets (monitorIdx : ℕ)
  | serializeToXmlFile (monitorIdx : ℕ) (filename : String)
  | simulatorDestroy

/-- The exact sequence of monitoring / run calls in `main`: a first
`FlowMonitorHelper::InstallAll` and `Simulator::Stop`, then (the duplicated
block) a second `InstallAll` and a second identical `Stop`, then `Run`,
`CheckForLostPackets` and `SerializeToXmlFile` on the second monitor only,
then `Destroy`. -/
def monitoringTrace (simTime : ℚ) : List Event :=
  [.installAll 1, .simulatorStop simTime,
   .installAll 2, .simulatorStop simTime,
   .simulatorRun,
   .checkForLostPackets 2,
   .serializeToXmlFile 2 "flowmon-lte.xml",
   .simulatorDestroy]

/-- Recognizes `InstallAll` events. -/
def isInstallAll : Event → Bool
  | .installAll _ => true
  | _ => false

/-- Extracts the stop time of a `Simulator::Stop` event. -/
def stopTimeOf : Event → Option ℚ
  | .simulatorStop t => some t
  | _ => none

/-- Recognizes `SerializeToXmlFile` events. -/
def isSerialize : Event → Bool
  | .serializeToXmlFile _ _ => true
  | _ => false

/-- Recognizes the `Simulator::Run` event. -/
def isSimulatorRun : Event → Bool
  | .simulatorRun => true
  | _ => false

end LteSim

namespace LteSim

/-! ## Claims -/

/-- C1: For every pair of distinct links created during topology setup,
their assigned address ranges do not overlap: remote-host link `i`
(`i = 0, 1`) receives the block `10.(i+1).0.0/16` in a strictly increasing
allocation sequence, and none of these blocks overlaps each other or the
UE address space `7.0.0.0/8` managed by the EPC helper. -/
theorem remote_link_blocks_disjoint (i j : ℕ)
    (hi : i < numRemoteHosts) (hj : j < numRemoteHosts) :
    remoteLinkBlock i = ⟨ipv4 10 (i + 1) 0 0, 2 ^ 16⟩ ∧
    (i < j → (remoteLinkBlock i).base < (remoteLinkBlock j).base) ∧
    (i ≠ j → blocksDisjoint (remoteLinkBlock i) (remoteLinkBlock j)) ∧
    blocksDisjoint (remoteLinkBlock i) ueAddressBlock := by
  simp only [numRemoteHosts] at hi hj
  interval_cases i <;> interval_cases j <;> refine ⟨rfl, ?_, ?_, ?_⟩ <;> decide

theorem remote_link_blocks_disjoint_witness :
    (0 < numRemoteHosts ∧ 1 < numRemoteHosts) ∧
    (remoteLinkBlock 0 = ⟨ipv4 10 1 0 0, 2 ^ 16⟩ ∧
     (0 < 1 → (remoteLinkBlock 0).base < (remoteLinkBlock 1).base) ∧
     ((0 : ℕ) ≠ 1 → blocksDisjoint (remoteLinkBlock 0) (remoteLinkBlock 1)) ∧
     blocksDisjoint (remoteLinkBlock 0) ueAddressBlock) :=
  ⟨⟨by decide, by decide⟩,
   remote_link_blocks_disjoint 0 1 (by decide) (by decide)⟩

/-- C2: For every UE with index `i` (`0 ≤ i < 10`), setup establishes
exactly one association (one `Attach` call in the complete call list), and
the access point it associates with is `accessPoints[i mod M]` with
`M = 4`; the association is made once at setup and never changed (the
call list is the program's full set of attach operations). -/
theorem round_robin_attachment (i : ℕ) (hi : i < numUes) :
    (attachCalls.filter fun c => c.1 == i).length = 1 ∧
    attachedEnb i = i % 4 ∧
    (i, i % 4) ∈ attachCalls := by
  simp only [numUes] at hi
  interval_cases i <;> refine ⟨by decide, by decide, by decide⟩

theorem round_robin_attachment_witness :
    3 < numUes ∧
    ((attachCalls.filter fun c => c.1 == 3).length = 1 ∧
     attachedEnb 3 = 3 % 4 ∧
     (3, 3 % 4) ∈ attachCalls) :=
  ⟨by decide, round_robin_attachment 3 (by decide)⟩

/-- C3 counterexample: the claim that UE 0 and UE 5 both associate with
access point 0 is false — UE 5 attaches to `enbDevs.Get(5 % 4)`, which is
access point 1. -/
theorem ue5_not_on_ap0 : ¬ (attachedEnb 0 = 0 ∧ attachedEnb 5 = 0) := by
  decide

/-- C3 (amended): In the concrete scenario with 4 access points at
(0,0), (200,0), (0,200), (200,200) (at height 20) and 10 UEs associated by
the program's attachment loop, UE 0 associates with access point 0 and
UE 5 associates with access point 1 (5 mod 4 = 1); the UEs sharing access
point 0 with UE 0 are UE 4 and UE 8. -/
theorem ue0_ap0_ue5_ap1 :
    enbPositions.map (fun p => (p.x, p.y)) =
      [(0, 0), (200, 0), (0, 200), (200, 200)] ∧
    attachedEnb 0 = 0 ∧ attachedEnb 5 = 1 ∧
    attachedEnb 4 = 0 ∧ attachedEnb 8 = 0 := by
  refine ⟨rfl, by decide, by decide, by decide, by decide⟩

end LteSim

namespace LteSim

/-- C4: After address assignment, routing setup installs on every UE
(all 10) a default route whose next hop is the gateway's UE-facing address
obtained from the address-assignment subsystem, and on every remote host
`i` a network route to the entire UE address space (`7.0.0.0/255.0.0.0`)
whose next hop is the gateway-side address of that host's own dedicated
link, taken from the `pgwAddressesForRemote` vector recorded during
topology construction. -/
theorem routing_setup (ueGateway : ℕ) (j : ℕ) (hj : j < numRemoteHosts) :
    ueDefaultRoutes ueGateway = List.replicate 10 ⟨0, 0, ueGateway, 1⟩ ∧
    remoteHostRoute j =
      ⟨ipv4 7 0 0 0, ipv4 255 0 0 0, pgwSideAddr j, 1⟩ ∧
    pgwAddressesForRemote.getD j 0 = pgwSideAddr j ∧
    (remoteLinkBlock j).base < pgwSideAddr j ∧
    pgwSideAddr j < (remoteLinkBlock j).base + (remoteLinkBlock j).size := by
  refine ⟨rfl, ?_, ?_, ?_, ?_⟩ <;>
    (simp only [numRemoteHosts] at hj; interval_cases j <;> decide)

theorem routing_setup_witness :
    0 < numRemoteHosts ∧
    (ueDefaultRoutes (ipv4 7 0 0 1) =
       List.replicate 10 ⟨0, 0, ipv4 7 0 0 1, 1⟩ ∧
     remoteHostRoute 0 =
       ⟨ipv4 7 0 0 0, ipv4 255 0 0 0, pgwSideAddr 0, 1⟩ ∧
     pgwAddressesForRemote.getD 0 0 = pgwSideAddr 0 ∧
     (remoteLinkBlock 0).base < pgwSideAddr 0 ∧
     pgwSideAddr 0 < (remoteLinkBlock 0).base + (remoteLinkBlock 0).size) :=
  ⟨by decide, routing_setup (ipv4 7 0 0 1) 0 (by decide)⟩

/-- C5: The traffic configuration partitions the 10 UEs into two disjoint,
exhaustive subsets receiving two disjoint traffic classes from two
distinct remote hosts: every BulkSend/TCP flow originates at remote host 0
and terminates at a UE with index in 0..4, every OnOff/UDP flow originates
at remote host 1 and terminates at a UE with index in 5..9, and each UE is
the destination of exactly one flow (so no UE receives both classes). -/
theorem traffic_partition (simTime : ℚ) :
    (flows simTime).map FlowSpec.dstUe = List.range numUes ∧
    ((flows simTime).all fun f =>
        match f.cls with
        | .bulk => f.srcHost == 0 && f.dstUe ≤ 4
        | .web => f.srcHost == 1 && decide (5 ≤ f.dstUe) && f.dstUe ≤ 9) =
      true ∧
    ((flows simTime).countP fun f => f.cls == TrafficClass.bulk) = 5 ∧
    ((flows simTime).countP fun f => f.cls == TrafficClass.web) = 5 := by
  exact ⟨rfl, rfl, rfl, rfl⟩

/-- The flow list written out element by element. -/
theorem flows_eq (simTime : ℚ) :
    flows simTime =
      [⟨.bulk, 0, 0, 9000, 1/2, 1, simTime⟩,
       ⟨.bulk, 0, 1, 9000, 1/2, 1, simTime⟩,
       ⟨.bulk, 0, 2, 9000, 1/2, 1, simTime⟩,
       ⟨.bulk, 0, 3, 9000, 1/2, 1, simTime⟩,
       ⟨.bulk, 0, 4, 9000, 1/2, 1, simTime⟩,
       ⟨.web, 1, 5, 8000, 3/2, 2, simTime⟩,
       ⟨.web, 1, 6, 8000, 3/2, 2, simTime⟩,
       ⟨.web, 1, 7, 8000, 3/2, 2, simTime⟩,
       ⟨.web, 1, 8, 8000, 3/2, 2, simTime⟩,
       ⟨.web, 1, 9, 8000, 3/2, 2, simTime⟩] := rfl

/-- C6: For every configured flow, the sink application's scheduled start
time is strictly less than its paired source application's start time:
bulk sinks start at 0.5 s versus bulk sources at 1.0 s, and web sinks at
1.5 s versus web sources at 2.0 s. -/
theorem sinks_start_before_sources (simTime : ℚ) :
    ((flows simTime).all fun f => decide (f.sinkStart < f.srcStart)) = true ∧
    ((bulkFlows simTime).all fun f =>
        decide (f.sinkStart = 1/2) && decide (f.srcStart = 1)) = true ∧
    ((webFlows simTime).all fun f =>
        decide (f.sinkStart = 3/2) && decide (f.srcStart = 2)) = true := by
  refine ⟨?_, ?_, ?_⟩ <;>
    · simp only [flows, bulkFlows, webFlows, List.range, List.range',
        List.range.loop, List.map_cons, List.map_nil, List.map_append,
        List.all_cons, List.all_nil, List.all_append, Bool.and_eq_true,
        decide_eq_true_eq, and_true]
      all_goals norm_num

end LteSim

namespace LteSim

/-- C7 counterexample: the waypoint path installed on UE 5 is not a closed
loop — it starts at (10,10,0) and ends at (10,150,0), so the claim that
every waypoint trajectory returns to its starting position is false. -/
theorem ue5_waypoints_not_closed : ¬ closedLoop (ueWaypoints 5) := by
  simp only [ueWaypoints, closedLoop, carWaypoints]
  norm_num

/-- C7 (amended): Every WaypointSequence trajectory assigned to a UE in
subset B (UEs 5..9) consists of the same ordered list of four
(time, position) pairs whose times are strictly increasing, but the
positions do not form a closed loop: the path starts at (10,10,0) and
ends at (10,150,0) without returning to its starting position. -/
theorem waypoint_times_increasing_path_open (i : ℕ)
    (h5 : 5 ≤ i) (h10 : i < 10) :
    ueWaypoints i = carWaypoints ∧
    timesStrictInc (ueWaypoints i) ∧
    ¬ closedLoop (ueWaypoints i) ∧
    (ueWaypoints i).head?.map Waypoint.pos = some ⟨10, 10, 0⟩ ∧
    (ueWaypoints i).getLast?.map Waypoint.pos = some ⟨10, 150, 0⟩ := by
  have hw : ueWaypoints i = carWaypoints := by
    unfold ueWaypoints
    exact if_pos ⟨h5, h10⟩
  rw [hw]
  refine ⟨rfl, ?_, ?_, ?_, ?_⟩
  · simp only [timesStrictInc, carWaypoints, List.chain'_cons, List.chain'_singleton,
      and_true]
    norm_num
  · simp only [closedLoop, carWaypoints]
    norm_num
  · rfl
  · rfl

theorem waypoint_times_increasing_path_open_witness :
    (5 ≤ 6 ∧ 6 < 10) ∧
    (ueWaypoints 6 = carWaypoints ∧
     timesStrictInc (ueWaypoints 6) ∧
     ¬ closedLoop (ueWaypoints 6) ∧
     (ueWaypoints 6).head?.map Waypoint.pos = some ⟨10, 10, 0⟩ ∧
     (ueWaypoints 6).getLast?.map Waypoint.pos = some ⟨10, 150, 0⟩) :=
  ⟨⟨by decide, by decide⟩,
   waypoint_times_increasing_path_open 6 (by decide) (by decide)⟩

/-- Parsing against an empty registered-name list leaves the bound
variable at its initial value, whatever arguments are supplied. -/
theorem parse_no_registered (args : List (String × ℚ)) (init : ℚ) :
    parseCommandLine [] args init = init := by
  induction args generalizing init with
  | nil => rfl
  | cons a as ih =>
      simp only [parseCommandLine, List.foldl_cons, List.not_mem_nil,
        if_false] at *
      exact ih init

/-- C8 counterexample: supplying a numeric command-line value does not set
the simulated duration — no parameter is registered with `AddValue`, so
`simTime` stays at 20.0 no matter what is passed. -/
theorem cli_value_ignored :
    simTimeAfterParse [("simTime", 5)] = 20 ∧
    simTimeAfterParse [("simTime", 5)] ≠ 5 := by
  constructor
  · rfl
  · rw [show simTimeAfterParse [("simTime", 5)] = 20 from rfl]
    norm_num

/-- C8 (amended): The program declares a command-line parser but registers
no parameter, so the total simulated duration is 20.0 seconds regardless
of the arguments supplied; that value determines both the simulator stop
time (both `Simulator::Stop` calls) and every source application's stop
time. -/
theorem sim_duration_fixed_at_20 (args : List (String × ℚ)) :
    simTimeAfterParse args = 20 ∧
    (monitoringTrace (simTimeAfterParse args)).filterMap stopTimeOf =
      [20, 20] ∧
    (flows (simTimeAfterParse args)).map FlowSpec.srcStop =
      List.replicate 10 20 := by
  have h : simTimeAfterParse args = 20 := parse_no_registered args 20
  rw [h]
  exact ⟨rfl, rfl, rfl⟩

/-- C9: The tail of `main` installs two independent flow-monitor instances
(two `InstallAll` calls), schedules the simulator stop time twice with the
same value, and serializes the XML report to the fixed filename
`flowmon-lte.xml` exactly once per run — after `Simulator::Run`, and only
from the second monitor instance; no serialization call ever names the
first monitor. -/
theorem double_monitor_single_report (simTime : ℚ) :
    (monitoringTrace simTime).countP isInstallAll = 2 ∧
    (monitoringTrace simTime).filterMap stopTimeOf = [simTime, simTime] ∧
    (monitoringTrace simTime).filter isSerialize =
      [.serializeToXmlFile 2 "flowmon-lte.xml"] ∧
    ((monitoringTrace simTime).takeWhile
        fun e => !isSimulatorRun e).countP isSerialize = 0 := by
  exact ⟨rfl, rfl, rfl, rfl⟩

/-- C10: All five waypoint UEs (indices 5..9) are assigned the identical
list of four waypoints, so for every query time `t` the trajectory
position of any two of these UEs is equal: they move in lock-step along
the same path for the entire run. -/
theorem waypoint_ues_lockstep (i j : ℕ) (t : ℚ)
    (hi5 : 5 ≤ i) (hi : i < 10) (hj5 : 5 ≤ j) (hj : j < 10) :
    ueWaypoints i = ueWaypoints j ∧
    (ueWaypoints i).length = 4 ∧
    posAt (ueWaypoints i) t = posAt (ueWaypoints j) t := by
  have h1 : ueWaypoints i = carWaypoints := by
    unfold ueWaypoints
    exact if_pos ⟨hi5, hi⟩
  have h2 : ueWaypoints j = carWaypoints := by
    unfold ueWaypoints
    exact if_pos ⟨hj5, hj⟩
  rw [h1, h2]
  exact ⟨rfl, rfl, rfl⟩

theorem waypoint_ues_lockstep_witness :
    (5 ≤ 5 ∧ 5 < 10 ∧ 5 ≤ 7 ∧ 7 < 10) ∧
    (ueWaypoints 5 = ueWaypoints 7 ∧
     (ueWaypoints 5).length = 4 ∧
     posAt (ueWaypoints 5) 3 = posAt (ueWaypoints 7) 3) :=
  ⟨⟨by decide, by decide, by decide, by decide⟩,
   waypoint_ues_lockstep 5 7 3 (by decide) (by decide) (by decide) (by decide)⟩

end LteSim
